import Mathlib

/-!
Verification development for the message-context normalization engine of
`packages/vk-io/src/structures/contexts/message.ts`.

The TypeScript class `MessageContext` is embedded shallowly: its wire payload
types become Lean structures, its private symbol-keyed fields become fields of
a `MessageCtx` record, its getters become functions on `MessageCtx`, and its
methods become state-passing functions.  Remote calls are modelled by
returning the issued call descriptor together with the updated state; values
that the remote side produces (the send result id, the acknowledgment list,
the fetched fragment) are passed in as explicit parameters.  Code that can
throw returns `Except`.

Platform and helper functions that are not part of the embedded file
(`JSON.parse`, `unescapeHTML`, `getPeerType`, `transformAttachments`) are
modelled explicitly; each such definition carries a doc comment saying what it
stands for.
-/

namespace VkIo

/-- JSON values, the result of decoding a message `payload` string.  Numeric
values keep their source lexeme verbatim (ECMAScript float semantics are out
of scope; no claim inspects a non-integral number). -/
inductive Json where
  | null : Json
  | bool (b : Bool) : Json
  | num (raw : String) : Json
  | str (s : String) : Json
  | arr (items : List Json) : Json
  | obj (fields : List (String × Json)) : Json
deriving Repr

/-- Whitespace accepted between JSON tokens. -/
def isJsonWs (c : Char) : Bool :=
  c = ' ' || c = '\t' || c = '\n' || c = '\r'

def skipWs : List Char → List Char
  | [] => []
  | c :: cs => if isJsonWs c then skipWs cs else c :: cs

/-- Value of a hexadecimal digit, used for `\u` escapes. -/
def hexVal (c : Char) : Option Nat :=
  if c.isDigit then some (c.toNat - 48)
  else if 'a'.toNat ≤ c.toNat && c.toNat ≤ 'f'.toNat then some (c.toNat - 87)
  else if 'A'.toNat ≤ c.toNat && c.toNat ≤ 'F'.toNat then some (c.toNat - 55)
  else none

/-- Parses the body of a JSON string after the opening quote; returns the
decoded string and the input following the closing quote. -/
def parseStringBody : Nat → List Char → List Char → Option (String × List Char)
  | 0, _, _ => none
  | _, [], _ => none
  | Nat.succ fuel, c :: rest, acc =>
    if c = Char.ofNat 34 then some (String.mk acc.reverse, rest)
    else if c = '\\' then
      match rest with
      | [] => none
      | e :: rest2 =>
        if e = Char.ofNat 34 then parseStringBody fuel rest2 (Char.ofNat 34 :: acc)
        else if e = '\\' then parseStringBody fuel rest2 ('\\' :: acc)
        else if e = '/' then parseStringBody fuel rest2 ('/' :: acc)
        else if e = 'n' then parseStringBody fuel rest2 ('\n' :: acc)
        else if e = 't' then parseStringBody fuel rest2 ('\t' :: acc)
        else if e = 'r' then parseStringBody fuel rest2 ('\r' :: acc)
        else if e = 'b' then parseStringBody fuel rest2 (Char.ofNat 8 :: acc)
        else if e = 'f' then parseStringBody fuel rest2 (Char.ofNat 12 :: acc)
        else if e = 'u' then
          match rest2 with
          | h1 :: h2 :: h3 :: h4 :: rest3 =>
            match hexVal h1, hexVal h2, hexVal h3, hexVal h4 with
            | some a, some b, some c2, some d =>
              parseStringBody fuel rest3 (Char.ofNat (((a * 16 + b) * 16 + c2) * 16 + d) :: acc)
            | _, _, _, _ => none
          | _ => none
        else none
    else if c.toNat < 32 then none
    else parseStringBody fuel rest (c :: acc)

/-- Longest digit prefix of the input, and the rest. -/
def takeDigits : List Char → List Char × List Char
  | [] => ([], [])
  | c :: cs =>
    if c.isDigit then
      let (d, r) := takeDigits cs
      (c :: d, r)
    else ([], c :: cs)

/-- Optional fraction part `.digits`. -/
def parseFracPart : List Char → Option (List Char × List Char)
  | '.' :: rest =>
    let (ds, r) := takeDigits rest
    if ds.isEmpty then none else some ('.' :: ds, r)
  | cs => some ([], cs)

/-- Optional exponent part `e[+-]digits`. -/
def parseExpPart : List Char → Option (List Char × List Char)
  | [] => some ([], [])
  | e :: rest =>
    if e = 'e' || e = 'E' then
      match rest with
      | s :: rest2 =>
        if s = '+' || s = '-' then
          let (ds, r) := takeDigits rest2
          if ds.isEmpty then none else some (e :: s :: ds, r)
        else
          let (ds, r) := takeDigits rest
          if ds.isEmpty then none else some (e :: ds, r)
      | [] => none
    else some ([], e :: rest)

/-- Lexes a JSON number (no leading zeros, optional sign, fraction and
exponent); returns the lexeme and the rest of the input. -/
def parseNumberLex (cs : List Char) : Option (List Char × List Char) :=
  let (neg, cs1) : List Char × List Char :=
    match cs with
    | '-' :: r => (['-'], r)
    | _ => ([], cs)
  match cs1 with
  | [] => none
  | c :: rest =>
    let intPart : Option (List Char × List Char) :=
      if c = '0' then some (neg ++ ['0'], rest)
      else if c.isDigit then
        let (ds, r) := takeDigits rest
        some (neg ++ c :: ds, r)
      else none
    match intPart with
    | none => none
    | some (ip, r0) =>
      match parseFracPart r0 with
      | none => none
      | some (fp, r1) =>
        match parseExpPart r1 with
        | none => none
        | some (ep, r2) => some (ip ++ fp ++ ep, r2)

mutual

/-- Recursive-descent JSON value parser; the fuel bounds nesting and sibling
count and is instantiated with the input length plus one, which every
successfully parsed input respects since each fuel step consumes input. -/
def parseValue : Nat → List Char → Option (Json × List Char)
  | 0, _ => none
  | Nat.succ fuel, cs0 =>
    let cs := skipWs cs0
    match cs with
    | [] => none
    | 'n' :: 'u' :: 'l' :: 'l' :: rest => some (Json.null, rest)
    | 't' :: 'r' :: 'u' :: 'e' :: rest => some (Json.bool true, rest)
    | 'f' :: 'a' :: 'l' :: 's' :: 'e' :: rest => some (Json.bool false, rest)
    | '[' :: rest =>
      match skipWs rest with
      | ']' :: r => some (Json.arr [], r)
      | other => parseArrayRest fuel other []
    | '{' :: rest =>
      match skipWs rest with
      | '}' :: r => some (Json.obj [], r)
      | other => parseObjectRest fuel other []
    | c :: _ =>
      if c = Char.ofNat 34 then
        match cs with
        | _ :: body => (parseStringBody (body.length + 1) body []).map fun p => (Json.str p.1, p.2)
        | [] => none
      else
        (parseNumberLex cs).map fun p => (Json.num (String.mk p.1), p.2)

/-- Parses the elements of a non-empty JSON array, positioned at a value. -/
def parseArrayRest : Nat → List Char → List Json → Option (Json × List Char)
  | 0, _, _ => none
  | Nat.succ fuel, cs, acc =>
    match parseValue fuel cs with
    | none => none
    | some (v, r) =>
      match skipWs r with
      | ',' :: r2 => parseArrayRest fuel r2 (v :: acc)
      | ']' :: r2 => some (Json.arr (v :: acc).reverse, r2)
      | _ => none

/-- Parses the members of a non-empty JSON object, positioned at a key. -/
def parseObjectRest : Nat → List Char → List (String × Json) → Option (Json × List Char)
  | 0, _, _ => none
  | Nat.succ fuel, cs, acc =>
    match skipWs cs with
    | q :: rest =>
      if q = Char.ofNat 34 then
        match parseStringBody (rest.length + 1) rest [] with
        | none => none
        | some (k, r1) =>
          match skipWs r1 with
          | ':' :: r2 =>
            match parseValue fuel r2 with
            | none => none
            | some (v, r3) =>
              match skipWs r3 with
              | ',' :: r4 => parseObjectRest fuel r4 ((k, v) :: acc)
              | '}' :: r4 => some (Json.obj ((k, v) :: acc).reverse, r4)
              | _ => none
          | _ => none
      else none
    | [] => none

end

/-- Models the ECMAScript builtin `JSON.parse` as used by `applyPayload`:
returns the decoded value, or an error (the thrown `SyntaxError`) when the
string is not valid JSON. -/
def jsonParse (s : String) : Except String Json :=
  let cs := s.toList
  match parseValue (cs.length + 1) cs with
  | some (v, rest) =>
    if (skipWs rest).isEmpty then Except.ok v
    else Except.error "SyntaxError: Unexpected token in JSON"
  | none => Except.error "SyntaxError: Unexpected token in JSON"

/-- Modelled from the spec: `unescapeHTML` from `utils/helpers` is not under
`src`; the spec says text is decoded "via HTML-entity unescape".  Single-pass
decoding of the common named/numeric entities. -/
def unescapeChars : List Char → List Char
  | [] => []
  | '&' :: 'a' :: 'm' :: 'p' :: ';' :: rest => '&' :: unescapeChars rest
  | '&' :: 'l' :: 't' :: ';' :: rest => '<' :: unescapeChars rest
  | '&' :: 'g' :: 't' :: ';' :: rest => '>' :: unescapeChars rest
  | '&' :: 'q' :: 'u' :: 'o' :: 't' :: ';' :: rest => Char.ofNat 34 :: unescapeChars rest
  | '&' :: '#' :: '3' :: '9' :: ';' :: rest => Char.ofNat 39 :: unescapeChars rest
  | c :: rest => c :: unescapeChars rest

/-- Modelled from the spec: HTML-entity unescaping of wire text. -/
def unescapeHTML (s : String) : String :=
  String.mk (unescapeChars s.toList)

/-- One attachment descriptor.  `type` is the wire type tag (`photo`,
`video`, `doc`, ...); `canBeAttached` is the "re-attachable by reference"
flag; `body` stands for the rest of the descriptor's data. -/
structure Attachment where
  type : String
  canBeAttached : Bool := true
  body : String := ""
deriving Repr, DecidableEq

/-- Modelled from the spec: `transformAttachments` from
`attachments/helpers` is not under `src`; the spec describes attachments as an
order-preserving sequence of tagged descriptors.  Descriptors are modelled
already tagged, so the transform is the identity mapping on them. -/
def transformAttachments (attachments : List Attachment) : List Attachment :=
  attachments

/-- `message.geo`: only its presence matters to any claim; the coordinates
mirror `geo.coordinates`. -/
structure Geo where
  latitude : Int := 0
  longitude : Int := 0
deriving Repr, DecidableEq

/-- The service-action event kinds of `message.action.type`. -/
inductive EventType where
  | chat_photo_update
  | chat_photo_remove
  | chat_create
  | chat_title_update
  | chat_invite_user
  | chat_kick_user
  | chat_pin_message
  | chat_unpin_message
  | chat_invite_user_by_link
deriving Repr, DecidableEq

/-- `message.action`. -/
structure ActionEvent where
  type : EventType
  member_id : Int := 0
  text : Option String := none
  email : Option String := none
deriving Repr, DecidableEq

/-- `client_info.button_actions` entries. -/
inductive ButtonAction where
  | text
  | vkpay
  | open_app
  | location
  | open_link
  | callback
deriving Repr, DecidableEq

/-- `client_info` of `IMessageContextPayload`. -/
structure ClientInfo where
  button_actions : List ButtonAction
  keyboard : Bool
  inline_keyboard : Bool
  carousel : Bool
  lang_id : Int
deriving Repr, DecidableEq

/-- The reply fragment (`reply_message`), per the spec's ReplyView surface:
id, text, peer/sender ids and an attachment list; `MessageReply` itself is not
under `src`. -/
structure ReplyFragment where
  id : Int := 0
  conversation_message_id : Int := 0
  peer_id : Int := 0
  from_id : Int := 0
  text : Option String := none
  attachments : List Attachment := []
deriving Repr, DecidableEq

/-- A forward fragment (`fwd_messages` element); forwards nest recursively. -/
inductive ForwardFragment where
  | mk (from_id : Int) (peer_id : Int) (text : Option String)
      (attachments : List Attachment) (fwd_messages : List ForwardFragment)
deriving Repr

def ForwardFragment.attachments : ForwardFragment → List Attachment
  | .mk _ _ _ a _ => a

def ForwardFragment.fwd_messages : ForwardFragment → List ForwardFragment
  | .mk _ _ _ _ f => f

/-- The wire message record `IMessageContextPayload['message']`. -/
structure MessageFragment where
  id : Int := 0
  conversation_message_id : Int := 0
  out : Int := 0
  peer_id : Int := 0
  from_id : Int := 0
  text : Option String := none
  date : Int := 0
  update_time : Option Int := none
  random_id : Int := 0
  ref : Option String := none
  ref_source : Option String := none
  attachments : List Attachment := []
  important : Bool := false
  geo : Option Geo := none
  payload : Option String := none
  reply_message : Option ReplyFragment := none
  fwd_messages : Option (List ForwardFragment) := none
  action : Option ActionEvent := none

/-- The full wire payload `IMessageContextPayload`. -/
structure Envelope where
  message : MessageFragment
  client_info : ClientInfo

/-- The `VKError` data carried by thrown assertion failures. -/
structure VKErr where
  message : String
  code : String
deriving Repr, DecidableEq

def payloadNotFullError : VKErr :=
  { message := "The message payload is not fully loaded", code := "PAYLOAD_IS_NOT_FULL" }

def notAChatError : VKErr :=
  { message := "This method is only available in chat", code := "IS_NOT_CHAT" }

/-- Peer classification returned by `getPeerType`. -/
inductive PeerType where
  | user
  | chat
  | group
deriving Repr, DecidableEq, BEq

/-- `CHAT_PEER` from `utils/constants` (not under `src`).  Modelled from the
spec: chat ids are `peerId - CHAT_PEER_BASE`, and the spec's scenario maps
`peerId = 2000000001` to `chatId = 1`. -/
def CHAT_PEER : Int := 2000000000

/-- Modelled from the spec: `getPeerType` from `utils/helpers` is not under
`src`; the spec classifies peers as chat (peer in the chat-id range, above
`CHAT_PEER`), group (negative id) or user. -/
def getPeerType (id : Int) : PeerType :=
  if CHAT_PEER < id then PeerType.chat
  else if id < 0 then PeerType.group
  else PeerType.user

/-- JavaScript truthiness of an optional string (`undefined` and the empty
string are falsy). -/
def truthyStr : Option String → Bool
  | some s => !(s == "")
  | none => false

/-- The state of one `MessageContext`: the normalized payload plus the
symbol-keyed private fields and the `$filled` lifecycle flag.  `matchValue`
stands for `$match` (set by an external text matcher; only its presence is
observable in serialization). -/
structure MessageCtx where
  payload : Envelope
  text : Option String
  filled : Bool
  attachments : List Attachment
  replyMessage : Option ReplyFragment
  forwards : List ForwardFragment
  messagePayload : Option Json
  matchValue : Option String

namespace MessageCtx

/-- `get message()`: alias of `payload.message`. -/
def message (ctx : MessageCtx) : MessageFragment :=
  ctx.payload.message

/-- `get id()`. -/
def id (ctx : MessageCtx) : Int :=
  ctx.message.id

/-- `get conversationMessageId()`. -/
def conversationMessageId (ctx : MessageCtx) : Int :=
  ctx.message.conversation_message_id

/-- `get peerId()`. -/
def peerId (ctx : MessageCtx) : Int :=
  ctx.message.peer_id

/-- `get peerType()`. -/
def peerType (ctx : MessageCtx) : PeerType :=
  getPeerType ctx.message.peer_id

/-- `get senderId()`. -/
def senderId (ctx : MessageCtx) : Int :=
  ctx.message.from_id

/-- `get senderType()`. -/
def senderType (ctx : MessageCtx) : PeerType :=
  getPeerType ctx.message.from_id

/-- `get isChat()`. -/
def isChat (ctx : MessageCtx) : Bool :=
  ctx.peerType == PeerType.chat

/-- `get chatId()`. -/
def chatId (ctx : MessageCtx) : Option Int :=
  if ctx.isChat then some (ctx.peerId - CHAT_PEER) else none

/-- `get hasText()`: JS truthiness of `this.text`. -/
def hasText (ctx : MessageCtx) : Bool :=
  truthyStr ctx.text

/-- `get hasReplyMessage()`. -/
def hasReplyMessage (ctx : MessageCtx) : Bool :=
  ctx.replyMessage.isSome

/-- `get hasForwards()`. -/
def hasForwards (ctx : MessageCtx) : Bool :=
  ctx.forwards.length != 0

/-- `get hasMessagePayload()`: truthiness of the raw `message.payload`. -/
def hasMessagePayload (ctx : MessageCtx) : Bool :=
  truthyStr ctx.message.payload

/-- `get hasGeo()`. -/
def hasGeo (ctx : MessageCtx) : Bool :=
  ctx.message.geo.isSome

/-- `get isEvent()`. -/
def isEvent (ctx : MessageCtx) : Bool :=
  ctx.message.action.isSome

/-- `get isOutbox()`: truthiness of the numeric `out` flag. -/
def isOutbox (ctx : MessageCtx) : Bool :=
  ctx.message.out != 0

/-- `get isImportant()`. -/
def isImportant (ctx : MessageCtx) : Bool :=
  ctx.message.important

/-- `get eventType()`. -/
def eventType (ctx : MessageCtx) : Option EventType :=
  ctx.message.action.map ActionEvent.type

/-- `get referralValue()`. -/
def referralValue (ctx : MessageCtx) : Option String :=
  ctx.message.ref

/-- `get referralSource()`. -/
def referralSource (ctx : MessageCtx) : Option String :=
  ctx.message.ref_source

/-- `get clientInfo()`. -/
def clientInfo (ctx : MessageCtx) : ClientInfo :=
  ctx.payload.client_info

/-- `get geo()`: returns `undefined` when the fragment has no geo; throws the
payload-not-full `VKError` on a stub; otherwise returns the geo data. -/
def geoGet (ctx : MessageCtx) : Except VKErr (Option Geo) :=
  if !ctx.hasGeo then Except.ok none
  else if !ctx.filled then Except.error payloadNotFullError
  else Except.ok ctx.message.geo

end MessageCtx

/-- The default `client_info` synthesized by the polyfill in `applyPayload`. -/
def defaultClientInfo : ClientInfo :=
  { button_actions := [ButtonAction.text]
    inline_keyboard := false
    keyboard := true
    carousel := false
    lang_id := 0 }

/-- The duck-typed input of `applyPayload` (`'client_info' in payload`),
made an explicit tagged union per the spec's design note. -/
inductive ApplyInput where
  | bare (message : MessageFragment)
  | enveloped (payload : Envelope)

/-- The polyfill at the top of `applyPayload`: a payload without a
`client_info` key is wrapped as a bare message with default capabilities; one
with the key is used as-is. -/
def ApplyInput.envelope : ApplyInput → Envelope
  | .bare m => { message := m, client_info := defaultClientInfo }
  | .enveloped p => p

/-- `applyPayload`: wraps a bare fragment with default capabilities, stores
the envelope, unescapes the text (empty/absent becomes `undefined`), rebuilds
the attachment list and the forward collection, replaces the reply view when
the fragment carries one, and decodes the JSON `payload` string when it is
truthy.  `JSON.parse` of an invalid string throws; the thrown error is the
`Except.error` case and aborts construction. -/
def applyPayload (ctx : MessageCtx) (input : ApplyInput) : Except String MessageCtx :=
  let payload : Envelope := input.envelope
  let newText : Option String :=
    match payload.message.text with
    | some t => if t = "" then none else some (unescapeHTML t)
    | none => none
  let m := payload.message
  let newAttachments := transformAttachments m.attachments
  let newReply : Option ReplyFragment :=
    match m.reply_message with
    | some r => some r
    | none => ctx.replyMessage
  let newForwards : List ForwardFragment := m.fwd_messages.getD []
  let newMessagePayload : Except String (Option Json) :=
    match m.payload with
    | some p =>
      if p = "" then Except.ok ctx.messagePayload
      else (jsonParse p).map some
    | none => Except.ok ctx.messagePayload
  newMessagePayload.map fun mp =>
    { ctx with
      payload := payload
      text := newText
      attachments := newAttachments
      replyMessage := newReply
      forwards := newForwards
      messagePayload := mp }

/-- A `MessageCtx` before its constructor has applied any payload: every
symbol-keyed field unset. -/
def blankCtx : MessageCtx :=
  { payload := { message := {}, client_info := defaultClientInfo }
    text := none
    filled := false
    attachments := []
    replyMessage := none
    forwards := []
    messagePayload := none
    matchValue := none }

/-- The options object assembled by `send`
(`IMessageContextSendOptions`, keys restricted to the ones the embedded
methods read or write).  A `none` field models an absent key.  The `text` key
exists on the runtime object only if a caller supplies it: `send` itself puts
the outgoing text under `message`, never under `text`. -/
structure SendOptions where
  peer_id : Option Int := none
  random_id : Option Int := none
  message : Option String := none
  text : Option String := none
  sticker_id : Option Int := none
  reply_to : Option Int := none
  attachment : Option (List Attachment) := none
deriving Repr, DecidableEq

/-- Object-spread merge: keys present in the overlay override the base. -/
def mergeOptions (base overlay : SendOptions) : SendOptions :=
  { peer_id := (match overlay.peer_id with | some v => some v | none => base.peer_id)
    random_id := (match overlay.random_id with | some v => some v | none => base.random_id)
    message := (match overlay.message with | some v => some v | none => base.message)
    text := (match overlay.text with | some v => some v | none => base.text)
    sticker_id := (match overlay.sticker_id with | some v => some v | none => base.sticker_id)
    reply_to := (match overlay.reply_to with | some v => some v | none => base.reply_to)
    attachment := (match overlay.attachment with | some v => some v | none => base.attachment) }

/-- One outbound remote call, identified by its `api.messages.*` (or upload)
method and the parameters the embedded code passes. -/
inductive RemoteCall where
  | messagesSend (options : SendOptions)
  | getById (message_ids : Int)
  | getByConversationMessageId (peer_id : Int) (conversation_message_ids : Int)
  | markAsImportant (important : Int) (message_ids : List Int)
  | editChat (chat_id : Int) (title : String)
  | uploadChatPhoto (chat_id : Int)
  | deleteChatPhoto (chat_id : Int)
  | addChatUser (chat_id : Int) (user_id : Int)
  | removeChatUser (chat_id : Int) (member_id : Int)
  | pin (peer_id : Int) (message_id : Int)
  | unpin (peer_id : Int) (message_id : Int)
deriving Repr, DecidableEq

/-- `send`: assembles the options (`peer_id` and the generated `random_id`
first, then the content spread over them), issues `messages.send`, and builds
a new context from the returned id over an envelope that echoes the current
fragment's peer and sender, marking it unfilled.  `randomId` is the value
produced by `getRandomId()`, `returnedId` the id the remote call resolves
with, and `now` the epoch-second timestamp. -/
def send (ctx : MessageCtx) (content : String ⊕ SendOptions) (params : SendOptions)
    (randomId : Int) (returnedId : Int) (now : Int) :
    Except String (RemoteCall × MessageCtx) :=
  let base : SendOptions := { peer_id := some ctx.peerId, random_id := some randomId }
  let overlay : SendOptions :=
    match content with
    | .inl text => mergeOptions { message := some text } params
    | .inr opts => opts
  let options := mergeOptions base overlay
  let call := RemoteCall.messagesSend options
  let m := ctx.message
  let stubPayload : Envelope :=
    { client_info := ctx.clientInfo
      message :=
        { id := returnedId
          conversation_message_id := 0
          from_id := m.from_id
          peer_id := m.peer_id
          out := 1
          important := false
          random_id := randomId
          text := options.text
          date := now
          attachments := [] } }
  (applyPayload blankCtx (ApplyInput.enveloped stubPayload)).map fun c =>
    (call, { c with filled := false })

/-- `loadMessagePayload`: no-op when already filled and not forced; otherwise
fetches the full fragment (`messages.getById` when the id is nonzero,
`messages.getByConversationMessageId` scoped by peer otherwise), re-applies it
as a bare fragment, and marks the context filled.  `fetched` is the single
item of the remote response. -/
def loadMessagePayload (ctx : MessageCtx) (force : Bool) (fetched : MessageFragment) :
    Except String (Option RemoteCall × MessageCtx) :=
  if ctx.filled && !force then Except.ok (none, ctx)
  else
    let call : RemoteCall :=
      if ctx.id != 0 then RemoteCall.getById ctx.id
      else RemoteCall.getByConversationMessageId ctx.peerId ctx.conversationMessageId
    (applyPayload ctx (ApplyInput.bare fetched)).map fun c =>
      (some call, { c with filled := true })

/-- `markAsImportant`: issues `messages.markAsImportant` and flips the local
`important` flag to `Boolean(options.important)` only when the returned id
list contains the context's own id.  `returnedIds` is the list the remote call
resolves with. -/
def markAsImportant (ctx : MessageCtx) (ids : List Int) (important : Int)
    (returnedIds : List Int) : RemoteCall × MessageCtx × List Int :=
  let call := RemoteCall.markAsImportant important ids
  let ctx' :=
    if returnedIds.contains ctx.id then
      { ctx with payload :=
        { ctx.payload with message := { ctx.payload.message with important := important != 0 } } }
    else ctx
  (call, ctx', returnedIds)

/-- `assertIsChat`: throws the not-a-chat `VKError` outside the chat range. -/
def assertIsChat (ctx : MessageCtx) : Except VKErr Unit :=
  if !ctx.isChat then Except.error notAChatError
  else Except.ok ()

/-- `renameChat`: chat-only; on success the issued `messages.editChat` call. -/
def renameChat (ctx : MessageCtx) (title : String) : Except VKErr RemoteCall :=
  match assertIsChat ctx with
  | Except.error e => Except.error e
  | Except.ok _ => Except.ok (RemoteCall.editChat (ctx.peerId - CHAT_PEER) title)

/-- `newChatPhoto`: chat-only; on success the issued chat-photo upload. -/
def newChatPhoto (ctx : MessageCtx) : Except VKErr RemoteCall :=
  match assertIsChat ctx with
  | Except.error e => Except.error e
  | Except.ok _ => Except.ok (RemoteCall.uploadChatPhoto (ctx.peerId - CHAT_PEER))

/-- `deleteChatPhoto`: chat-only; on success the issued
`messages.deleteChatPhoto` call. -/
def deleteChatPhotoOp (ctx : MessageCtx) : Except VKErr RemoteCall :=
  match assertIsChat ctx with
  | Except.error e => Except.error e
  | Except.ok _ => Except.ok (RemoteCall.deleteChatPhoto (ctx.peerId - CHAT_PEER))

/-- `inviteUser`: chat-only; on success the issued `messages.addChatUser`. -/
def inviteUser (ctx : MessageCtx) (userId : Int) : Except VKErr RemoteCall :=
  match assertIsChat ctx with
  | Except.error e => Except.error e
  | Except.ok _ => Except.ok (RemoteCall.addChatUser (ctx.peerId - CHAT_PEER) userId)

/-- `kickUser`: chat-only; on success the issued `messages.removeChatUser`. -/
def kickUser (ctx : MessageCtx) (memberId : Int) : Except VKErr RemoteCall :=
  match assertIsChat ctx with
  | Except.error e => Except.error e
  | Except.ok _ => Except.ok (RemoteCall.removeChatUser (ctx.peerId - CHAT_PEER) memberId)

/-- `pinMessage`: chat-only; on success the issued `messages.pin`. -/
def pinMessage (ctx : MessageCtx) : Except VKErr RemoteCall :=
  match assertIsChat ctx with
  | Except.error e => Except.error e
  | Except.ok _ => Except.ok (RemoteCall.pin ctx.peerId ctx.id)

/-- `unpinMessage`: chat-only; on success the issued `messages.unpin`. -/
def unpinMessage (ctx : MessageCtx) : Except VKErr RemoteCall :=
  match assertIsChat ctx with
  | Except.error e => Except.error e
  | Except.ok _ => Except.ok (RemoteCall.unpin ctx.peerId ctx.id)

/-- `[kSerializeData]`: the ordered list of property names the debug
projection picks, with the conditional blocks pushed exactly as the source
does. -/
def kSerializeDataFields (ctx : MessageCtx) : List String :=
  let beforeAttachments : Array String := #[]
  let beforeAttachments :=
    if ctx.isEvent then
      ((((beforeAttachments.push "eventType").push "eventMemberId").push "eventText").push "eventEmail")
    else beforeAttachments
  let beforeAttachments :=
    if ctx.hasReplyMessage then beforeAttachments.push "replyMessage" else beforeAttachments
  let afterAttachments : Array String := #[]
  let afterAttachments :=
    if ctx.hasMessagePayload then afterAttachments.push "messagePayload" else afterAttachments
  let afterAttachments := afterAttachments.push "isOutbox"
  let afterAttachments :=
    if truthyStr ctx.referralValue then
      ((afterAttachments.push "referralValue").push "referralSource")
    else afterAttachments
  let afterAttachments :=
    if ctx.matchValue.isSome then afterAttachments.push "$match" else afterAttachments
  ["id", "conversationMessageId", "peerId", "peerType", "senderId", "senderType",
    "createdAt", "updatedAt", "text"]
    ++ beforeAttachments.toList
    ++ ["forwards", "attachments"]
    ++ afterAttachments.toList

/-- Modelled from the spec: `Attachmentable.getAttachments` from
`shared/attachmentable` is not under `src`; the spec's AttachmentView filters
by tag equality preserving order, and returns everything when no kind is
given. -/
def attachmentsFilter (attachments : List Attachment) : Option String → List Attachment
  | none => attachments
  | some kind => attachments.filter fun a => a.type == kind

/-- Modelled from the spec: `MessageForwardsCollection.getAttachments` from
`shared/message-forwards-collection` is not under `src`; the spec's
ForwardChain aggregates each element's own attachments in chain order without
recursing into nested forwards. -/
def forwardsGetAttachments (forwards : List ForwardFragment) (kind : Option String) :
    List Attachment :=
  (forwards.map fun f => attachmentsFilter f.attachments kind).flatten

namespace MessageCtx

/-- The mixin's `getAttachments` on the context's own attachment list. -/
def getAttachments (ctx : MessageCtx) (kind : Option String) : List Attachment :=
  attachmentsFilter ctx.attachments kind

/-- `getAllAttachments`: own attachments, then the reply's (optional
chaining, `?? []`), then the forward chain's. -/
def getAllAttachments (ctx : MessageCtx) (kind : String) : List Attachment :=
  ctx.getAttachments (some kind)
    ++ (match ctx.replyMessage with
        | some r => attachmentsFilter r.attachments (some kind)
        | none => [])
    ++ forwardsGetAttachments ctx.forwards (some kind)

end MessageCtx

/-- Helper: characterization of a successful `applyPayload`.  Shared by the
claim theorems below. -/
theorem applyPayload_ok (ctx : MessageCtx) (input : ApplyInput) (c : MessageCtx)
    (h : applyPayload ctx input = Except.ok c) :
    c.payload = input.envelope
    ∧ c.text = (match input.envelope.message.text with
        | some t => if t = "" then none else some (unescapeHTML t)
        | none => none)
    ∧ c.attachments = transformAttachments input.envelope.message.attachments
    ∧ (∀ r, input.envelope.message.reply_message = some r → c.replyMessage = some r)
    ∧ (input.envelope.message.reply_message = none → c.replyMessage = ctx.replyMessage)
    ∧ c.forwards = input.envelope.message.fwd_messages.getD []
    ∧ c.filled = ctx.filled
    ∧ c.matchValue = ctx.matchValue := by
  unfold applyPayload at h
  cases hp : input.envelope.message.payload with
  | none =>
    simp only [hp, Except.map] at h
    cases h
    refine ⟨rfl, rfl, rfl, ?_, ?_, rfl, rfl, rfl⟩
    · intro r hr
      simp [hr]
    · intro hr
      simp [hr]
  | some p =>
    simp only [hp] at h
    by_cases hpe : p = ""
    · simp only [hpe, if_pos rfl, Except.map] at h
      cases h
      refine ⟨rfl, rfl, rfl, ?_, ?_, rfl, rfl, rfl⟩
      · intro r hr
        simp [hr]
      · intro hr
        simp [hr]
    · simp only [if_neg hpe] at h
      cases hj : jsonParse p with
      | error e =>
        rw [hj] at h
        simp [Except.map] at h
      | ok v =>
        rw [hj] at h
        simp only [Except.map] at h
        cases h
        refine ⟨rfl, rfl, rfl, ?_, ?_, rfl, rfl, rfl⟩
        · intro r hr
          simp [hr]
        · intro hr
          simp [hr]

/-- Helper: the context a successful `applyPayload` produces (the input
context itself when the payload fails to decode); used to name concrete
normalized contexts in closed statements. -/
def applyOrBlank (ctx : MessageCtx) (input : ApplyInput) : MessageCtx :=
  match applyPayload ctx input with
  | Except.ok c => c
  | Except.error _ => ctx

/-- Concrete fragment whose `payload` is a string that is not valid JSON. -/
def badPayloadFrag : MessageFragment :=
  { id := 3, peer_id := 10, from_id := 10, date := 100, payload := some "not json" }

/-- C1 counterexample: on a fragment with `payload = "not json"`,
`applyPayload` propagates the `JSON.parse` error — normalization throws, so
the claim's "messagePayload is undefined and normalization does not throw" is
false on the code. -/
theorem c1_invalid_payload_throws :
    badPayloadFrag.payload = some "not json"
    ∧ applyPayload blankCtx (ApplyInput.bare badPayloadFrag)
        = Except.error "SyntaxError: Unexpected token in JSON" :=
  ⟨rfl, rfl⟩

/-- C1 (amended): for a freshly constructed context, an absent (or empty,
hence falsy) `payload` leaves `messagePayload` undefined; a non-empty
`payload` is decoded by `JSON.parse` at apply time, a valid string yielding
the decoded value and an invalid one propagating the thrown parse error out
of normalization. -/
theorem c1_messagePayload_decode (input : ApplyInput) :
    (applyPayload blankCtx input).map MessageCtx.messagePayload =
      (match input.envelope.message.payload with
        | none => Except.ok none
        | some p => if p = "" then Except.ok none else (jsonParse p).map some) := by
  unfold applyPayload
  cases hp : input.envelope.message.payload with
  | none =>
    simp [hp, blankCtx, Except.map, MessageCtx.messagePayload]
  | some p =>
    by_cases hpe : p = ""
    · simp [hp, hpe, blankCtx, Except.map, MessageCtx.messagePayload]
    · cases hj : jsonParse p <;>
        simp [hp, hpe, hj, Except.map, MessageCtx.messagePayload]

/-- Concrete stub context without geo data. -/
def stubNoGeoCtx : MessageCtx :=
  applyOrBlank blankCtx
    (ApplyInput.bare { id := 1, peer_id := 5, from_id := 5, date := 10 })

/-- Concrete stub context whose fragment carries geo data. -/
def stubGeoCtx : MessageCtx :=
  applyOrBlank blankCtx
    (ApplyInput.bare { id := 1, peer_id := 5, from_id := 5, date := 10, geo := some {} })

/-- C2 counterexample: a stub context whose fragment has no geo data reads
`geo` as `undefined` without any error, so "reading the `geo` accessor always
fails with the PayloadIncomplete error" is false on the code: the `hasGeo`
early return comes before the `$filled` check. -/
theorem c2_stub_geo_undefined :
    stubNoGeoCtx.filled = false
    ∧ stubNoGeoCtx.message.geo = none
    ∧ stubNoGeoCtx.geoGet = Except.ok none :=
  ⟨rfl, rfl, rfl⟩

/-- C2 (amended): on a stub context, reading `geo` fails with the
payload-not-full `VKError` whenever the fragment carries geo data; when the
fragment has no geo data the accessor silently returns `undefined`. -/
theorem c2_stub_geo_requires_full (ctx : MessageCtx) (h : ctx.filled = false) :
    (ctx.hasGeo = true → ctx.geoGet = Except.error payloadNotFullError)
    ∧ (ctx.message.geo = none → ctx.geoGet = Except.ok none) := by
  constructor
  · intro hg
    simp [MessageCtx.geoGet, hg, h]
  · intro hg
    simp [MessageCtx.geoGet, MessageCtx.hasGeo, hg]

/-- C2 witness: the amended behavior at the two concrete stub contexts. -/
theorem c2_stub_geo_requires_full_witness :
    stubGeoCtx.geoGet = Except.error payloadNotFullError
    ∧ stubNoGeoCtx.geoGet = Except.ok none :=
  ⟨(c2_stub_geo_requires_full stubGeoCtx rfl).1 rfl,
   (c2_stub_geo_requires_full stubNoGeoCtx rfl).2 rfl⟩

/-- Concrete full context with `peer_id = 123`, `from_id = 456`. -/
def sendDemoCtx : MessageCtx :=
  { payload :=
      { message := { id := 1, peer_id := 123, from_id := 456, date := 1000 }
        client_info := defaultClientInfo }
    text := none
    filled := true
    attachments := []
    replyMessage := none
    forwards := []
    messagePayload := none
    matchValue := none }

/-- C3: evaluation of `send("hi")` at a context with `peer_id = 123` (random
id 999, remote-returned id 77, timestamp 5000).  The issued `messages.send`
call carries the fresh `random_id` and the current peer id, and the returned
stub has `out = 1`, inherited peer and sender ids, and `$filled = false` — but
its `text` is `undefined`, not `"hi"`: the constructor payload reads
`options.text` while `send` stores the outgoing text under `options.message`,
so the claim's `text == "hi"` fails on the code. -/
theorem c3_send_stub_eval :
    (send sendDemoCtx (Sum.inl "hi") {} 999 77 5000).map
        (fun r => (r.1, r.2.message.out, r.2.message.peer_id, r.2.message.from_id,
          r.2.message.random_id, r.2.message.id, r.2.filled, r.2.text))
      = Except.ok
          (RemoteCall.messagesSend
            { peer_id := some 123, random_id := some 999, message := some "hi" },
           1, 123, 456, 999, 77, false, none) :=
  rfl

/-- C4: `getAllAttachments(kind)` is exactly the context's own attachments
filtered by the kind tag, then the reply's (empty without a reply), then the
forward chain's element-wise filtered attachments flattened in chain order;
each part is an order-preserving selection (a sublist) of its source. -/
theorem c4_getAllAttachments_order (ctx : MessageCtx) (kind : String) :
    ctx.getAllAttachments kind =
      ctx.attachments.filter (fun a => a.type == kind)
      ++ (match ctx.replyMessage with
          | some r => r.attachments.filter (fun a => a.type == kind)
          | none => [])
      ++ (ctx.forwards.map fun f => f.attachments.filter (fun a => a.type == kind)).flatten
    ∧ List.Sublist (ctx.getAttachments (some kind)) ctx.attachments := by
  constructor
  · rfl
  · simp only [MessageCtx.getAttachments, attachmentsFilter]
    exact List.filter_sublist ctx.attachments

/-- C5: a payload without a `client_info` key is wrapped as a bare message
fragment with exactly the default capabilities `{button_actions = [text],
keyboard = true, inline_keyboard = false, carousel = false, lang_id = 0}`,
while a payload that has the key is stored as-is. -/
theorem c5_default_client_info (ctx : MessageCtx) (m : MessageFragment) (e : Envelope)
    (cb ce : MessageCtx)
    (hb : applyPayload ctx (ApplyInput.bare m) = Except.ok cb)
    (he : applyPayload ctx (ApplyInput.enveloped e) = Except.ok ce) :
    cb.payload =
      { message := m
        client_info :=
          { button_actions := [ButtonAction.text]
            keyboard := true
            inline_keyboard := false
            carousel := false
            lang_id := 0 } }
    ∧ ce.payload = e :=
  ⟨(applyPayload_ok ctx (ApplyInput.bare m) cb hb).1,
   (applyPayload_ok ctx (ApplyInput.enveloped e) ce he).1⟩

/-- Concrete bare fragment and enveloped payload used by the C5 witness. -/
def c5BareFrag : MessageFragment :=
  { id := 9, peer_id := 44, from_id := 44, date := 70 }

def c5Envelope : Envelope :=
  { message := { id := 9, peer_id := 44, from_id := 44, date := 70 }
    client_info :=
      { button_actions := [ButtonAction.text, ButtonAction.callback]
        keyboard := false
        inline_keyboard := true
        carousel := true
        lang_id := 3 } }

/-- C5 witness: the synthesized defaults and the as-is envelope at concrete
inputs. -/
theorem c5_default_client_info_witness :
    (applyOrBlank blankCtx (ApplyInput.bare c5BareFrag)).payload =
      { message := c5BareFrag
        client_info :=
          { button_actions := [ButtonAction.text]
            keyboard := true
            inline_keyboard := false
            carousel := false
            lang_id := 0 } }
    ∧ (applyOrBlank blankCtx (ApplyInput.enveloped c5Envelope)).payload = c5Envelope :=
  ⟨(c5_default_client_info blankCtx c5BareFrag c5Envelope
      (applyOrBlank blankCtx (ApplyInput.bare c5BareFrag))
      (applyOrBlank blankCtx (ApplyInput.enveloped c5Envelope)) rfl rfl).1,
   (c5_default_client_info blankCtx c5BareFrag c5Envelope
      (applyOrBlank blankCtx (ApplyInput.bare c5BareFrag))
      (applyOrBlank blankCtx (ApplyInput.enveloped c5Envelope)) rfl rfl).2⟩

/-- C6: `loadMessagePayload` is a no-op on a filled, unforced context; when it
proceeds it fetches via `messages.getById` for a nonzero id and via the
peer-scoped `messages.getByConversationMessageId` for id 0, replaces the
internal fragment with the fetched one (rebuilding the attachment list, the
forward collection, and the reply view from the fetched fragment), and sets
the state to full. -/
theorem c6_load_message_payload (ctx : MessageCtx) (force : Bool)
    (fetched : MessageFragment) :
    (ctx.filled = true → force = false →
      loadMessagePayload ctx force fetched = Except.ok (none, ctx))
    ∧ (∀ oc c, loadMessagePayload ctx force fetched = Except.ok (oc, c) →
        (ctx.filled = false ∨ force = true) →
        oc = some (if ctx.id = 0
          then RemoteCall.getByConversationMessageId ctx.peerId ctx.conversationMessageId
          else RemoteCall.getById ctx.id)
        ∧ c.payload.message = fetched
        ∧ c.attachments = transformAttachments fetched.attachments
        ∧ c.forwards = fetched.fwd_messages.getD []
        ∧ (∀ r, fetched.reply_message = some r → c.replyMessage = some r)
        ∧ c.filled = true) := by
  constructor
  · intro h1 h2
    simp [loadMessagePayload, h1, h2]
  · intro oc c h hcond
    have hguard : (ctx.filled && !force) = false := by
      rcases hcond with h1 | h1 <;> simp [h1]
    rw [loadMessagePayload, hguard] at h
    simp only [Bool.false_eq_true, if_false] at h
    cases ha : applyPayload ctx (ApplyInput.bare fetched) with
    | error e =>
      rw [ha] at h
      simp [Except.map] at h
    | ok c0 =>
      rw [ha] at h
      simp only [Except.map, Except.ok.injEq, Prod.mk.injEq] at h
      obtain ⟨hoc, hc⟩ := h
      obtain ⟨hpay, -, hatt, hrep, -, hfwd, -, -⟩ :=
        applyPayload_ok ctx (ApplyInput.bare fetched) c0 ha
      subst hc
      refine ⟨?_, ?_, ?_, ?_, ?_, rfl⟩
      · by_cases hz : ctx.id = 0 <;> simp [hz] at hoc ⊢ <;> simp [← hoc]
      · simp [MessageCtx.message, hpay, ApplyInput.envelope]
      · simpa [ApplyInput.envelope] using hatt
      · simpa [ApplyInput.envelope] using hfwd
      · intro r hr
        exact hrep r (by simpa [ApplyInput.envelope] using hr)

/-- Concrete filled context for the C6 no-op branch. -/
def loadFullCtx : MessageCtx :=
  { sendDemoCtx with filled := true }

/-- Concrete stub context with id 0 (conversation-message lookup path). -/
def loadStubCtx : MessageCtx :=
  { payload :=
      { message := { id := 0, conversation_message_id := 42, peer_id := 5, from_id := 6, date := 10 }
        client_info := defaultClientInfo }
    text := none
    filled := false
    attachments := []
    replyMessage := none
    forwards := []
    messagePayload := none
    matchValue := none }

/-- Concrete fetched full fragment carrying a reply. -/
def loadFetchedFrag : MessageFragment :=
  { id := 8, conversation_message_id := 42, peer_id := 5, from_id := 6, date := 10
    attachments := [{ type := "photo", body := "p1" }]
    reply_message := some { id := 2, attachments := [{ type := "doc", body := "d1" }] }
    fwd_messages := some [ForwardFragment.mk 7 5 none [{ type := "photo", body := "p2" }] []] }

/-- The result of promoting the concrete stub. -/
def loadStubResult : Option RemoteCall × MessageCtx :=
  match loadMessagePayload loadStubCtx false loadFetchedFrag with
  | Except.ok r => r
  | Except.error _ => (none, loadStubCtx)

/-- C6 witness: the no-op branch at the filled context, and the promotion
branch at the id-0 stub. -/
theorem c6_load_message_payload_witness :
    loadMessagePayload loadFullCtx false loadFetchedFrag = Except.ok (none, loadFullCtx)
    ∧ loadStubResult.1 = some (RemoteCall.getByConversationMessageId 5 42)
    ∧ loadStubResult.2.payload.message = loadFetchedFrag
    ∧ loadStubResult.2.filled = true :=
  ⟨(c6_load_message_payload loadFullCtx false loadFetchedFrag).1 rfl rfl,
   ((c6_load_message_payload loadStubCtx false loadFetchedFrag).2
      loadStubResult.1 loadStubResult.2 rfl (Or.inl rfl)).1,
   ((c6_load_message_payload loadStubCtx false loadFetchedFrag).2
      loadStubResult.1 loadStubResult.2 rfl (Or.inl rfl)).2.1,
   ((c6_load_message_payload loadStubCtx false loadFetchedFrag).2
      loadStubResult.1 loadStubResult.2 rfl (Or.inl rfl)).2.2.2.2.2⟩

/-- C7: after `markAsImportant(ids, {important})` resolves with
`returnedIds`, the local state is the original fragment with `important`
set to `Boolean(important)` exactly when the context's own id appears in
`returnedIds`; otherwise the state is unchanged even though the call
succeeded. -/
theorem c7_mark_as_important (ctx : MessageCtx) (ids : List Int) (important : Int)
    (returnedIds : List Int) :
    (returnedIds.contains ctx.id = true →
      (markAsImportant ctx ids important returnedIds).2.1 =
        { ctx with payload :=
          { ctx.payload with message :=
            { ctx.payload.message with important := important != 0 } } })
    ∧ (returnedIds.contains ctx.id = false →
      (markAsImportant ctx ids important returnedIds).2.1 = ctx)
    ∧ (markAsImportant ctx ids important returnedIds).2.2 = returnedIds
    ∧ (markAsImportant ctx ids important returnedIds).1 =
        RemoteCall.markAsImportant important ids := by
  refine ⟨?_, ?_, rfl, rfl⟩
  · intro h
    unfold markAsImportant
    rw [h]
    simp
  · intro h
    unfold markAsImportant
    rw [h]
    simp

/-- C7 witness: at a context with id 1, acknowledgment `[1, 2]` flips the
flag and `[2]` leaves the state untouched. -/
theorem c7_mark_as_important_witness :
    (markAsImportant sendDemoCtx [1] 1 [1, 2]).2.1 =
      { sendDemoCtx with payload :=
        { sendDemoCtx.payload with message :=
          { sendDemoCtx.payload.message with important := true } } }
    ∧ (markAsImportant sendDemoCtx [1] 1 [2]).2.1 = sendDemoCtx :=
  ⟨(c7_mark_as_important sendDemoCtx [1] 1 [1, 2]).1 rfl,
   (c7_mark_as_important sendDemoCtx [1] 1 [2]).2.1 rfl⟩

/-- C8: every chat-only operation on a context whose peer id is at or below
`CHAT_PEER` (outside the chat-id range) fails with the not-a-chat `VKError`
and issues no remote call. -/
theorem c8_chat_only_guard (ctx : MessageCtx) (h : ctx.peerId ≤ CHAT_PEER)
    (title : String) (userId memberId : Int) :
    renameChat ctx title = Except.error notAChatError
    ∧ newChatPhoto ctx = Except.error notAChatError
    ∧ deleteChatPhotoOp ctx = Except.error notAChatError
    ∧ inviteUser ctx userId = Except.error notAChatError
    ∧ kickUser ctx memberId = Except.error notAChatError
    ∧ pinMessage ctx = Except.error notAChatError
    ∧ unpinMessage ctx = Except.error notAChatError := by
  have hnc : ¬ (CHAT_PEER < ctx.message.peer_id) := not_lt.mpr h
  have hchat : ctx.isChat = false := by
    simp only [MessageCtx.isChat, MessageCtx.peerType, getPeerType, if_neg hnc]
    by_cases hg : ctx.message.peer_id < 0
    · rw [if_pos hg]
      rfl
    · rw [if_neg hg]
      rfl
  refine ⟨?_, ?_, ?_, ?_, ?_, ?_, ?_⟩ <;>
    simp [renameChat, newChatPhoto, deleteChatPhotoOp, inviteUser, kickUser,
      pinMessage, unpinMessage, assertIsChat, hchat]

/-- C8 witness: all seven chat-only operations fail on the concrete direct
peer 123. -/
theorem c8_chat_only_guard_witness :
    renameChat sendDemoCtx "t" = Except.error notAChatError
    ∧ pinMessage sendDemoCtx = Except.error notAChatError :=
  ⟨(c8_chat_only_guard sendDemoCtx (by decide) "t" 1 2).1,
   (c8_chat_only_guard sendDemoCtx (by decide) "t" 1 2).2.2.2.2.2.1⟩

/-- C9: the serialized projection lists the nine base fields first in their
fixed order, then the four event fields exactly when `isEvent`, then
`replyMessage` exactly when a reply is present, then `forwards` and
`attachments`, then `messagePayload` exactly when the raw payload is present,
then always `isOutbox`, then the two referral fields exactly when
`referralValue` is truthy, then `$match` exactly when a pattern match was
populated. -/
theorem c9_serialize_field_order (ctx : MessageCtx) :
    kSerializeDataFields ctx =
      ["id", "conversationMessageId", "peerId", "peerType", "senderId", "senderType",
        "createdAt", "updatedAt", "text"]
      ++ (if ctx.isEvent then ["eventType", "eventMemberId", "eventText", "eventEmail"] else [])
      ++ (if ctx.hasReplyMessage then ["replyMessage"] else [])
      ++ ["forwards", "attachments"]
      ++ (if ctx.hasMessagePayload then ["messagePayload"] else [])
      ++ ["isOutbox"]
      ++ (if truthyStr ctx.referralValue then ["referralValue", "referralSource"] else [])
      ++ (if ctx.matchValue.isSome then ["$match"] else []) := by
  unfold kSerializeDataFields
  cases h1 : ctx.isEvent <;> cases h2 : ctx.hasReplyMessage <;>
    cases h3 : ctx.hasMessagePayload <;> cases h4 : truthyStr ctx.referralValue <;>
    cases h5 : ctx.matchValue.isSome <;>
    simp [h1, h2, h3, h4, h5]

/-- C10: after normalization, an absent or empty wire `text` leaves the
`text` accessor undefined and `hasText` false (empty and absent are
indistinguishable), while a non-empty wire `text` is exposed
HTML-entity-unescaped. -/
theorem c10_text_normalization (ctx : MessageCtx) (input : ApplyInput) (c : MessageCtx)
    (h : applyPayload ctx input = Except.ok c) :
    ((input.envelope.message.text = none ∨ input.envelope.message.text = some "") →
      c.text = none ∧ c.hasText = false)
    ∧ (∀ t, input.envelope.message.text = some t → t ≠ "" →
      c.text = some (unescapeHTML t)) := by
  obtain ⟨-, htext, -⟩ := applyPayload_ok ctx input c h
  constructor
  · intro hcase
    have hnone : c.text = none := by
      rcases hcase with hc | hc <;> simp [htext, hc]
    exact ⟨hnone, by simp [MessageCtx.hasText, truthyStr, hnone]⟩
  · intro t ht hne
    rw [htext, ht]
    simp [hne]

/-- Concrete fragments for the C10 witness: empty wire text and entity-laden
wire text. -/
def emptyTextFrag : MessageFragment :=
  { id := 4, peer_id := 2, from_id := 2, date := 50, text := some "" }

def entityTextFrag : MessageFragment :=
  { id := 4, peer_id := 2, from_id := 2, date := 50, text := some "a &amp; b &lt;c&gt;" }

/-- C10 witness: the empty-text fragment normalizes with no text and
`hasText = false`; the entity-laden fragment normalizes to the unescaped
text. -/
theorem c10_text_normalization_witness :
    (applyOrBlank blankCtx (ApplyInput.bare emptyTextFrag)).text = none
    ∧ (applyOrBlank blankCtx (ApplyInput.bare emptyTextFrag)).hasText = false
    ∧ (applyOrBlank blankCtx (ApplyInput.bare entityTextFrag)).text = some "a & b <c>" :=
  ⟨((c10_text_normalization blankCtx (ApplyInput.bare emptyTextFrag)
      (applyOrBlank blankCtx (ApplyInput.bare emptyTextFrag)) rfl).1 (Or.inr rfl)).1,
   ((c10_text_normalization blankCtx (ApplyInput.bare emptyTextFrag)
      (applyOrBlank blankCtx (ApplyInput.bare emptyTextFrag)) rfl).1 (Or.inr rfl)).2,
   (c10_text_normalization blankCtx (ApplyInput.bare entityTextFrag)
      (applyOrBlank blankCtx (ApplyInput.bare entityTextFrag)) rfl).2
     "a &amp; b &lt;c&gt;" rfl (by decide)⟩

end VkIo
